import Mathlib

/-!
Verification of the CASPR servo calibration data
(`src/HardwareInterface/Arduino/interface_code/nano_code/servo_properties/servo_04.h`)
against its natural-language specification.

The header defines only preprocessor constants; the specification describes
them as a per-servo `ServoCalibration` record together with three pure
conversion functions.  The constants and the two derived constants are
embedded directly from the header; the conversion functions are not present
in the provided source and are modelled from the specification's words.
-/

/-- The per-servo calibration record described in the specification's data
model (§3): integer PWM bounds and speed bounds, one instance per servo. -/
structure ServoCalibration where
  id : ℤ
  feedbackPwmMin : ℤ
  feedbackPwmMax : ℤ
  commandPwmMin : ℤ
  commandPwmMax : ℤ
  clockwisePwmMin : ℤ
  clockwisePwmMax : ℤ
  clockwiseSpeedMin : ℤ
  clockwiseSpeedMax : ℤ
  anticlockwisePwmMin : ℤ
  anticlockwisePwmMax : ℤ
  anticlockwiseSpeedMin : ℤ
  anticlockwiseSpeedMax : ℤ
  deriving DecidableEq

/-- `FEEDBACK_PWM_MIDDLE`, embedded from `servo_04.h` line 4:
`( (FEEDBACK_PWM_MAX + FEEDBACK_PWM_MIN) / 2 )` with C integer division
(all operands here are positive, so truncating and Euclidean division
agree). -/
def feedbackPwmMiddle (c : ServoCalibration) : ℤ :=
  (c.feedbackPwmMax + c.feedbackPwmMin) / 2

/-- `COMMAND_PWM_RANGE`, embedded from `servo_04.h` line 7:
`(COMMAND_PWM_MAX - COMMAND_PWM_MIN)`. -/
def commandPwmRange (c : ServoCalibration) : ℤ :=
  c.commandPwmMax - c.commandPwmMin

/-- The calibration record for servo 4, embedded value-for-value from
`servo_04.h`. -/
def servo_04 : ServoCalibration where
  id := 4
  feedbackPwmMin := 504
  feedbackPwmMax := 1509
  commandPwmMin := 491
  commandPwmMax := 1495
  clockwisePwmMin := 2094
  clockwisePwmMax := 2194
  clockwiseSpeedMin := 130
  clockwiseSpeedMax := 283
  anticlockwisePwmMin := 1891
  anticlockwisePwmMax := 1800
  anticlockwiseSpeedMin := -133
  anticlockwiseSpeedMax := -281

/-- The only error kind of the specification's conversion contract (§7). -/
inductive ConvError where
  | OutOfCalibratedRange
  deriving DecidableEq

/-- Modelled from the spec: `feedbackPwmToPosition(pwm) -> position` (§4.1)
is not in the provided source; the spec says it "maps a raw feedback PWM
sample linearly onto a normalized position range using
`feedbackPwmMin`/`feedbackPwmMax` as the 0..1 extremes" and that an input
outside `[feedbackPwmMin, feedbackPwmMax]` is `OutOfCalibratedRange`
(§7, §8).  We take the signalling (non-clamping) reading, which §8's
example (`3000` yields `OutOfCalibratedRange`) fixes. -/
def feedbackPwmToPosition (c : ServoCalibration) (pwm : ℚ) : Except ConvError ℚ :=
  if (c.feedbackPwmMin : ℚ) ≤ pwm ∧ pwm ≤ (c.feedbackPwmMax : ℚ) then
    .ok ((pwm - (c.feedbackPwmMin : ℚ)) / ((c.feedbackPwmMax : ℚ) - (c.feedbackPwmMin : ℚ)))
  else
    .error .OutOfCalibratedRange

/-- Modelled from the spec: `speedToCommandPwm(speed) -> pwm` (§4.1) is not
in the provided source; the spec says it selects the clockwise or
anticlockwise band, "then linearly interpolates between that band's speed
bounds to its PWM bounds (respecting the anticlockwise band's reversed PWM
ordering)", and signals `OutOfCalibratedRange` when the input falls outside
every defined band (§7).  Interpolation is carried out over the rationals. -/
def speedToCommandPwm (c : ServoCalibration) (s : ℚ) : Except ConvError ℚ :=
  if (c.clockwiseSpeedMin : ℚ) ≤ s ∧ s ≤ (c.clockwiseSpeedMax : ℚ) then
    .ok ((c.clockwisePwmMin : ℚ) +
      (s - (c.clockwiseSpeedMin : ℚ)) * ((c.clockwisePwmMax : ℚ) - (c.clockwisePwmMin : ℚ)) /
        ((c.clockwiseSpeedMax : ℚ) - (c.clockwiseSpeedMin : ℚ)))
  else if (c.anticlockwiseSpeedMax : ℚ) ≤ s ∧ s ≤ (c.anticlockwiseSpeedMin : ℚ) then
    .ok ((c.anticlockwisePwmMin : ℚ) +
      (s - (c.anticlockwiseSpeedMin : ℚ)) * ((c.anticlockwisePwmMax : ℚ) - (c.anticlockwisePwmMin : ℚ)) /
        ((c.anticlockwiseSpeedMax : ℚ) - (c.anticlockwiseSpeedMin : ℚ)))
  else
    .error .OutOfCalibratedRange

/-- Modelled from the spec: `commandPwmToSpeed(pwm) -> speed` (§4.1) is not
in the provided source; the spec says it is the "inverse of the above,
band-selected by which PWM interval the sample falls into", signalling
`OutOfCalibratedRange` outside every band (§7).  The anticlockwise PWM
interval is `[anticlockwisePwmMax, anticlockwisePwmMin]` (endpoints in
numeric order, per the reversed ordering of §3). -/
def commandPwmToSpeed (c : ServoCalibration) (p : ℚ) : Except ConvError ℚ :=
  if (c.clockwisePwmMin : ℚ) ≤ p ∧ p ≤ (c.clockwisePwmMax : ℚ) then
    .ok ((c.clockwiseSpeedMin : ℚ) +
      (p - (c.clockwisePwmMin : ℚ)) * ((c.clockwiseSpeedMax : ℚ) - (c.clockwiseSpeedMin : ℚ)) /
        ((c.clockwisePwmMax : ℚ) - (c.clockwisePwmMin : ℚ)))
  else if (c.anticlockwisePwmMax : ℚ) ≤ p ∧ p ≤ (c.anticlockwisePwmMin : ℚ) then
    .ok ((c.anticlockwiseSpeedMin : ℚ) +
      (p - (c.anticlockwisePwmMin : ℚ)) * ((c.anticlockwiseSpeedMax : ℚ) - (c.anticlockwiseSpeedMin : ℚ)) /
        ((c.anticlockwisePwmMax : ℚ) - (c.anticlockwisePwmMin : ℚ)))
  else
    .error .OutOfCalibratedRange

/-- The number of PWM bands (command interval, anticlockwise band taken with
endpoints in numeric order, clockwise band) containing a given PWM value;
the membership tests mirror the interval tests of `commandPwmToSpeed`. -/
def pwmBandCount (c : ServoCalibration) (p : ℚ) : ℕ :=
  (if (c.commandPwmMin : ℚ) ≤ p ∧ p ≤ (c.commandPwmMax : ℚ) then 1 else 0) +
  (if (c.anticlockwisePwmMax : ℚ) ≤ p ∧ p ≤ (c.anticlockwisePwmMin : ℚ) then 1 else 0) +
  (if (c.clockwisePwmMin : ℚ) ≤ p ∧ p ≤ (c.clockwisePwmMax : ℚ) then 1 else 0)

/-- The number of speed bands (clockwise, anticlockwise) containing a given
speed; the membership tests mirror the band tests of `speedToCommandPwm`. -/
def speedBandCount (c : ServoCalibration) (s : ℚ) : ℕ :=
  (if (c.clockwiseSpeedMin : ℚ) ≤ s ∧ s ≤ (c.clockwiseSpeedMax : ℚ) then 1 else 0) +
  (if (c.anticlockwiseSpeedMax : ℚ) ≤ s ∧ s ≤ (c.anticlockwiseSpeedMin : ℚ) then 1 else 0)

/-- C1: `FEEDBACK_PWM_MIDDLE` equals `(FEEDBACK_PWM_MIN + FEEDBACK_PWM_MAX) / 2`
under integer division, and for `servo_04` it equals exactly `1006`. -/
theorem C1_feedbackPwmMiddle :
    feedbackPwmMiddle servo_04 =
      (servo_04.feedbackPwmMin + servo_04.feedbackPwmMax) / 2 ∧
    feedbackPwmMiddle servo_04 = 1006 := by
  constructor <;> decide

/-- C2: `COMMAND_PWM_RANGE` equals `COMMAND_PWM_MAX - COMMAND_PWM_MIN`, and
for `servo_04` it equals exactly `1004`. -/
theorem C2_commandPwmRange :
    commandPwmRange servo_04 = servo_04.commandPwmMax - servo_04.commandPwmMin ∧
    commandPwmRange servo_04 = 1004 := by
  constructor <;> decide

/-- C3: in `servo_04` the anticlockwise band has reversed PWM ordering
(`ANTICLOCKWISE_PWM_MIN > ANTICLOCKWISE_PWM_MAX`, i.e. `1891 > 1800`), its
paired speed values are both negative and decreasing
(`ANTICLOCKWISE_SPEED_MIN = -133 > ANTICLOCKWISE_SPEED_MAX = -281`), and the
larger-magnitude negative speed maps to the smaller PWM
(`-133 -> 1891`, `-281 -> 1800`). -/
theorem C3_anticlockwise_reversed :
    servo_04.anticlockwisePwmMin > servo_04.anticlockwisePwmMax ∧
    servo_04.anticlockwiseSpeedMin < 0 ∧
    servo_04.anticlockwiseSpeedMax < 0 ∧
    servo_04.anticlockwiseSpeedMin > servo_04.anticlockwiseSpeedMax ∧
    speedToCommandPwm servo_04 (-133) = .ok 1891 ∧
    speedToCommandPwm servo_04 (-281) = .ok 1800 := by
  refine ⟨by decide, by decide, by decide, by decide, ?_, ?_⟩ <;>
    norm_num [speedToCommandPwm, servo_04]

/-- C4: `speedToCommandPwm` on the clockwise band of `servo_04` maps speed
`130` to PWM `2094`, speed `283` to PWM `2194`, and the midpoint speed
`(130+283)/2` exactly to `(2094+2194)/2 = 2144` (interpolation over the
rationals, hence within any rounding tolerance of integer arithmetic). -/
theorem C4_clockwise_examples :
    speedToCommandPwm servo_04 130 = .ok 2094 ∧
    speedToCommandPwm servo_04 283 = .ok 2194 ∧
    speedToCommandPwm servo_04 ((130 + 283) / 2) = .ok ((2094 + 2194) / 2) := by
  refine ⟨?_, ?_, ?_⟩ <;> norm_num [speedToCommandPwm, servo_04]

/-- C7: the `servo_04` record satisfies the data-model invariant
`feedbackPwmMin < feedbackPwmMax` (`504 < 1509`). -/
theorem C7_feedback_invariant :
    servo_04.feedbackPwmMin < servo_04.feedbackPwmMax := by
  decide

/-- C8: `feedbackPwmToPosition` applied to `3000` (outside the feedback band
`[504, 1509]` of `servo_04`) yields `OutOfCalibratedRange`, and for every
input the error is signalled exactly when the input lies outside the
feedback band. -/
theorem C8_out_of_range :
    feedbackPwmToPosition servo_04 3000 = .error .OutOfCalibratedRange ∧
    ∀ p : ℚ, (feedbackPwmToPosition servo_04 p = .error .OutOfCalibratedRange ↔
      ¬ ((servo_04.feedbackPwmMin : ℚ) ≤ p ∧ p ≤ (servo_04.feedbackPwmMax : ℚ))) := by
  constructor
  · norm_num [feedbackPwmToPosition, servo_04]
  · intro p
    rw [feedbackPwmToPosition]
    split_ifs with h
    · simp [h]
    · simp [h]

/-- Witness for C8: instantiating the characterisation at the concrete
out-of-band input `2000`. -/
theorem C8_out_of_range_witness :
    feedbackPwmToPosition servo_04 2000 = .error .OutOfCalibratedRange :=
  (C8_out_of_range.2 2000).mpr (by norm_num [servo_04])

/-- C5: for every speed inside a calibrated band of `servo_04`
(`130 ≤ s ≤ 283` clockwise, `-281 ≤ s ≤ -133` anticlockwise),
`commandPwmToSpeed (speedToCommandPwm s)` recovers `s` exactly, the
interpolation being carried out over the rationals. -/
theorem C5_round_trip (s : ℚ)
    (h : ((servo_04.clockwiseSpeedMin : ℚ) ≤ s ∧ s ≤ (servo_04.clockwiseSpeedMax : ℚ)) ∨
         ((servo_04.anticlockwiseSpeedMax : ℚ) ≤ s ∧ s ≤ (servo_04.anticlockwiseSpeedMin : ℚ))) :
    ∃ p, speedToCommandPwm servo_04 s = .ok p ∧ commandPwmToSpeed servo_04 p = .ok s := by
  simp only [servo_04] at h
  push_cast at h
  rcases h with ⟨ha, hb⟩ | ⟨ha, hb⟩
  · refine ⟨2094 + (s - 130) * 100 / 153, ?_, ?_⟩
    · simp only [speedToCommandPwm, servo_04]
      rw [if_pos (by constructor <;> push_cast <;> linarith)]
      refine congrArg Except.ok ?_
      push_cast
      ring
    · simp only [commandPwmToSpeed, servo_04]
      rw [if_pos (by constructor <;> push_cast <;> linarith)]
      refine congrArg Except.ok ?_
      push_cast
      ring
  · refine ⟨1891 + (s + 133) * 91 / 148, ?_, ?_⟩
    · simp only [speedToCommandPwm, servo_04]
      rw [if_neg (by push_cast; intro hc; linarith [hc.1]),
        if_pos (by constructor <;> push_cast <;> linarith)]
      refine congrArg Except.ok ?_
      push_cast
      ring
    · simp only [commandPwmToSpeed, servo_04]
      rw [if_neg (by push_cast; intro hc; linarith [hc.1]),
        if_pos (by constructor <;> push_cast <;> linarith)]
      refine congrArg Except.ok ?_
      push_cast
      ring

/-- Witness for C5: the round trip at the concrete clockwise speed `200`. -/
theorem C5_round_trip_witness :
    ∃ p, speedToCommandPwm servo_04 200 = .ok p ∧ commandPwmToSpeed servo_04 p = .ok 200 :=
  C5_round_trip 200 (Or.inl (by constructor <;> norm_num [servo_04]))

/-- C6: `feedbackPwmToPosition` is monotone non-decreasing on the feedback
band `[504, 1509]` of `servo_04`: PWM values `p1 ≤ p2` in the band map to
positions `q1 ≤ q2`. -/
theorem C6_feedback_monotone (p1 p2 : ℚ)
    (h1 : (servo_04.feedbackPwmMin : ℚ) ≤ p1)
    (h2 : p2 ≤ (servo_04.feedbackPwmMax : ℚ))
    (h12 : p1 ≤ p2) :
    ∃ q1 q2, feedbackPwmToPosition servo_04 p1 = .ok q1 ∧
      feedbackPwmToPosition servo_04 p2 = .ok q2 ∧ q1 ≤ q2 := by
  simp only [servo_04] at h1 h2
  push_cast at h1 h2
  refine ⟨(p1 - 504) / (1509 - 504), (p2 - 504) / (1509 - 504), ?_, ?_, ?_⟩
  · simp only [feedbackPwmToPosition, servo_04]
    rw [if_pos (by constructor <;> push_cast <;> linarith)]
    refine congrArg Except.ok ?_
    push_cast
    ring
  · simp only [feedbackPwmToPosition, servo_04]
    rw [if_pos (by constructor <;> push_cast <;> linarith)]
    refine congrArg Except.ok ?_
    push_cast
    ring
  · exact div_le_div_of_nonneg_right (by linarith) (by norm_num)

/-- Witness for C6: monotonicity at the concrete band endpoints `504` and
`1509`. -/
theorem C6_feedback_monotone_witness :
    ∃ q1 q2, feedbackPwmToPosition servo_04 504 = .ok q1 ∧
      feedbackPwmToPosition servo_04 1509 = .ok q2 ∧ q1 ≤ q2 :=
  C6_feedback_monotone 504 1509 (by norm_num [servo_04]) (by norm_num [servo_04])
    (by norm_num)

/-- C9: in `servo_04` the command interval `[491, 1495]`, the anticlockwise
band `[1800, 1891]` (endpoints in numeric order) and the clockwise band
`[2094, 2194]` are pairwise disjoint: the three intervals sit in strictly
increasing order, and no PWM value belongs to more than one of the interval
membership tests used in band selection. -/
theorem C9_pwm_bands_disjoint :
    servo_04.commandPwmMax < servo_04.anticlockwisePwmMax ∧
    servo_04.anticlockwisePwmMin < servo_04.clockwisePwmMin ∧
    ∀ p : ℚ, pwmBandCount servo_04 p ≤ 1 := by
  refine ⟨by decide, by decide, ?_⟩
  intro p
  simp only [pwmBandCount, servo_04]
  push_cast
  split_ifs with h1 h2 h3 h4 h5 h6 h7
  · exact absurd h2.1 (by linarith [h1.2])
  · exact absurd h2.1 (by linarith [h1.2])
  · exact absurd h4.1 (by linarith [h1.2])
  · norm_num
  · exact absurd h6.1 (by linarith [h5.2])
  · norm_num
  · norm_num
  · norm_num

/-- C10: in `servo_04` both clockwise speed bounds are strictly positive and
both anticlockwise speed bounds are strictly negative, every speed lies in
at most one band of `speedToCommandPwm`, and every speed in the gap
`-133 < s < 130` (including `0`) is out of calibrated range. -/
theorem C10_speed_gap (s : ℚ)
    (h1 : (servo_04.anticlockwiseSpeedMin : ℚ) < s)
    (h2 : s < (servo_04.clockwiseSpeedMin : ℚ)) :
    (0 < servo_04.clockwiseSpeedMin ∧ 0 < servo_04.clockwiseSpeedMax ∧
      servo_04.anticlockwiseSpeedMin < 0 ∧ servo_04.anticlockwiseSpeedMax < 0) ∧
    (∀ t : ℚ, speedBandCount servo_04 t ≤ 1) ∧
    speedToCommandPwm servo_04 s = .error .OutOfCalibratedRange := by
  simp only [servo_04] at h1 h2
  push_cast at h1 h2
  refine ⟨by decide, ?_, ?_⟩
  · intro t
    simp only [speedBandCount, servo_04]
    push_cast
    split_ifs with ha hb hc
    · exact absurd hb.2 (by linarith [ha.1])
    · norm_num
    · norm_num
    · norm_num
  · simp only [speedToCommandPwm, servo_04]
    rw [if_neg (by push_cast; intro hc; linarith [hc.1]),
      if_neg (by push_cast; intro hc; linarith [hc.2])]

/-- Witness for C10: the gap behaviour at the concrete speed `0`. -/
theorem C10_speed_gap_witness :
    speedToCommandPwm servo_04 0 = .error .OutOfCalibratedRange :=
  (C10_speed_gap 0 (by norm_num [servo_04]) (by norm_num [servo_04])).2.2
